import Mathlib

/-!
Formal model of the Telegram coffee-shop ordering bot (`bot.py`): the
per-user ordering workflow kept in aiogram's `FSMContext` (an FSM state
plus a data dict holding the cart and in-progress "scratch" selections),
and the order-persistence layer (`Database.create_order`).

Conventions of the embedding:
* `state.get_data().get(key)` returns `None` when the key is absent,
  hence every scratch field is an `Option` with default `none`, and
  `data.get("cart", [])` / `data.get("current_quantity", 1)` become
  `Option.getD`;
* `state.clear()` resets the FSM state to `None` (modelled as
  `BotState.idle`) and the data dict to the empty dict, i.e. an empty
  cart and an all-`none` scratch (`Session.cleared`);
* Python `int` arithmetic is unbounded and exact, modelled as `Int`;
* an expression that raises a `TypeError` (`None * int` inside a total
  computation) makes the handler fail, modelled by an `Option` result
  being `none`;
* Python `==` on possibly-`None` values (`None == None` is `True`)
  matches `Option` equality.
-/

namespace TgBot

/-- One cart line, as stored in the `cart` list of the FSM data dict:
a dict with keys `product_id`, `name`, `price` and `quantity`, built in
`add_to_cart`. The first three fields are read from scratch keys that
`data.get` may report as `None`, hence `Option`. -/
structure CartItem where
  product_id : Option Nat
  name : Option String
  price : Option Int
  quantity : Int
  deriving DecidableEq

/-- The in-progress selection data stored in the FSM data dict
(`current_category_id`, `current_product_id`, `current_product_name`,
`current_product_price`, `current_quantity`, `payment_method`,
`pickup_time`). Every field defaults to `none`, the value `data.get`
yields for an absent key. -/
structure Scratch where
  current_category_id : Option Nat := none
  current_product_id : Option Nat := none
  current_product_name : Option String := none
  current_product_price : Option Int := none
  current_quantity : Option Int := none
  payment_method : Option String := none
  pickup_time : Option String := none
  deriving DecidableEq

/-- The aiogram FSM states of `OrderStates`, plus `idle` for the
cleared state (`state.set_state(None)` / after `state.clear()`). -/
inductive BotState where
  | idle
  | choosing_category
  | choosing_product
  | adding_to_cart
  | viewing_cart
  | checkout
  | payment_method
  | pickup_time
  | confirming_order
  deriving DecidableEq

/-- One user's conversation session: the FSM state together with the
data dict (cart list and scratch keys). -/
structure Session where
  state : BotState
  cart : List CartItem
  scratch : Scratch
  deriving DecidableEq

/-- The session after `state.clear()`: FSM state `None` and an empty
data dict, so the cart reads back as `[]` and every scratch key as
`None`. -/
def Session.cleared : Session :=
  { state := .idle, cart := [], scratch := {} }

/-- One row of the `products` table. -/
structure Product where
  id : Nat
  category_id : Nat
  name : String
  description : String
  price : Int
  available : Bool
  deriving DecidableEq

/-- `Database.get_product_by_id`: `SELECT ... FROM products WHERE id = ?`
followed by `fetchone()` — the first matching row, if any. -/
def get_product_by_id (catalog : List Product) (product_id : Nat) : Option Product :=
  catalog.find? (fun p => p.id == product_id)

/-- One row of the `orders` table as inserted by `create_order`
(`status` is always the literal "новый" at creation). -/
structure OrderRow where
  order_id : Nat
  user_id : Nat
  status : String
  total_price : Int
  payment_method : Option String
  pickup_time : Option String
  deriving DecidableEq

/-- One row of the `order_items` table as inserted by `create_order`:
it copies `product_id`, `quantity` and `price` from the cart line. -/
structure OrderItemRow where
  order_id : Nat
  product_id : Option Nat
  quantity : Int
  price : Option Int
  deriving DecidableEq

/-- The order-related tables of the sqlite database, with the
autoincrement counter that assigns `lastrowid` for `orders`. -/
structure DB where
  orders : List OrderRow
  order_items : List OrderItemRow
  next_order_id : Nat
  deriving DecidableEq

/-- The total expression `sum(item['price'] * item['quantity'] for item
in cart)` that `create_order`, `show_cart` and `select_pickup_time` each
recompute from the cart. A line whose `price` is `None` makes the Python
sum raise a `TypeError`, modelled as `none`. -/
def cartTotal : List CartItem → Option Int
  | [] => some 0
  | it :: rest =>
    match it.price, cartTotal rest with
    | some p, some t => some (p * it.quantity + t)
    | _, _ => none

/-- The same total expression recomputed over persisted `order_items`
rows (`price * quantity` per row). -/
def orderLinesTotal : List OrderItemRow → Option Int
  | [] => some 0
  | r :: rest =>
    match r.price, orderLinesTotal rest with
    | some p, some t => some (p * r.quantity + t)
    | _, _ => none

/-- `Database.create_order(user_id, cart, payment_method, pickup_time)`:
computes `total_price` from the cart, inserts one `orders` row with
status "новый", then one `order_items` row per cart line, and returns
`lastrowid`. There is no emptiness check on `cart`. The total is
computed before any insert, so a `TypeError` from a `None` price
(result `none`) leaves the tables unchanged. -/
def Database.create_order (db : DB) (user_id : Nat) (cart : List CartItem)
    (payment_method pickup_time : Option String) : Option (DB × Nat) :=
  match cartTotal cart with
  | none => none
  | some total_price =>
    let order_id := db.next_order_id
    some ({ orders := db.orders ++
              [⟨order_id, user_id, "новый", total_price, payment_method, pickup_time⟩],
            order_items := db.order_items ++
              cart.map (fun it => ⟨order_id, it.product_id, it.quantity, it.price⟩),
            next_order_id := order_id + 1 }, order_id)

/-- `show_categories`: sets the FSM state to `choosing_category`; it
only reads the catalog and touches no data-dict key. -/
def show_categories (s : Session) : Session :=
  { s with state := .choosing_category }

/-- `show_products(category_id)`: stores `current_category_id` and sets
the FSM state to `choosing_product`; the cart is untouched. -/
def show_products (s : Session) (category_id : Nat) : Session :=
  { s with
    state := .choosing_product,
    scratch := { s.scratch with current_category_id := some category_id } }

/-- `show_product_details(product_id)`: looks the product up with
`get_product_by_id`; if absent it only answers "Продукт не найден" and
returns (session unchanged); otherwise it snapshots id/name/price into
scratch, sets `current_quantity = 1` and moves to `adding_to_cart`.
The registered handler `process_product_selection` carries no FSM state
filter, so this runs whatever the current state is. -/
def show_product_details (catalog : List Product) (s : Session)
    (product_id : Nat) : Session :=
  match get_product_by_id catalog product_id with
  | none => s
  | some p =>
    { s with
      state := .adding_to_cart,
      scratch := { s.scratch with
        current_product_id := some p.id,
        current_product_name := some p.name,
        current_product_price := some p.price,
        current_quantity := some 1 } }

/-- `update_product_quantity(change)`: reads
`data.get("current_quantity", 1)` and stores
`max(1, current_quantity + change)`. Only the scratch key changes. -/
def update_product_quantity (s : Session) (change : Int) : Session :=
  { s with
    scratch := { s.scratch with
      current_quantity := some (max 1 (s.scratch.current_quantity.getD 1 + change)) } }

/-- The in-place update loop of `add_to_cart`: walk the cart and set the
quantity of the first line whose `product_id` equals the scratch one
(the loop body does `item["quantity"] = quantity` then `return`). -/
def updateFirst (pid : Option Nat) (q : Int) : List CartItem → List CartItem
  | [] => []
  | it :: rest =>
    if it.product_id = pid then { it with quantity := q } :: rest
    else it :: updateFirst pid q rest

/-- The cart mutation performed by `add_to_cart`: if some line already
has the scratch `current_product_id` (Python `==`, where `None == None`
holds), replace that line's quantity in place; otherwise append a new
line built from the scratch snapshots, with
`quantity = data.get("current_quantity", 1)`. -/
def cart_upsert (sc : Scratch) (cart : List CartItem) : List CartItem :=
  let pid := sc.current_product_id
  let q := sc.current_quantity.getD 1
  if cart.any (fun it => it.product_id == pid) then
    updateFirst pid q cart
  else
    cart ++ [{ product_id := pid, name := sc.current_product_name,
               price := sc.current_product_price, quantity := q }]

/-- The `add_to_cart` handler on a session: reads the scratch snapshots
and the cart from the data dict, upserts, and writes the cart back. The
FSM state and the scratch are unchanged. -/
def add_to_cart (s : Session) : Session :=
  { s with cart := cart_upsert s.scratch s.cart }

/-- `remove_from_cart(product_id)`: keeps the lines whose `product_id`
differs from the given (integer) id. -/
def remove_from_cart (s : Session) (product_id : Nat) : Session :=
  { s with cart := s.cart.filter (fun it => it.product_id != some product_id) }

/-- `process_clear_cart`: `state.update_data(cart=[])`. -/
def process_clear_cart (s : Session) : Session :=
  { s with cart := [] }

/-- `show_cart`: on an empty cart it only answers a message and returns
(no state change, no displayed total); otherwise it computes the total
(a `None` price raises, modelled as `none`) and sets the FSM state to
`viewing_cart`. Returns the resulting session and the displayed total. -/
def show_cart (s : Session) : Option (Session × Option Int) :=
  if s.cart = [] then some (s, none)
  else
    match cartTotal s.cart with
    | none => none
    | some t => some ({ s with state := .viewing_cart }, some t)

/-- `confirm_order`: reads cart, `payment_method` and `pickup_time` from
the data dict; on an empty cart it only answers "Ваша корзина пуста" and
returns (no order, nothing changed, third component `none`); otherwise
it calls `Database.create_order`, then clears the cart and the whole FSM
context (`state.update_data(cart=[])` followed by `state.clear()`), and
returns the new order id. A raising `create_order` (`none`) aborts the
handler before any session change. -/
def confirm_order (user_id : Nat) (db : DB) (s : Session) :
    Option (DB × Session × Option Nat) :=
  if s.cart = [] then some (db, s, none)
  else
    match Database.create_order db user_id s.cart
        s.scratch.payment_method s.scratch.pickup_time with
    | none => none
    | some (db', order_id) => some (db', Session.cleared, some order_id)

/-- `cancel_order`: `state.clear()` — the FSM state and the whole data
dict (cart included) are discarded. -/
def cancel_order : Session → Session :=
  fun _ => Session.cleared

/-- `process_back_to_main`: `state.clear()` then the main keyboard. -/
def process_back_to_main : Session → Session :=
  fun _ => Session.cleared

/-- `process_back_to_menu`: `show_categories`. -/
def process_back_to_menu (s : Session) : Session :=
  show_categories s

/-- `process_back_to_categories`: `show_categories`. -/
def process_back_to_categories (s : Session) : Session :=
  show_categories s

/-- `process_back_to_products`: fetches `current_category_id`; if it is
truthy (`None` and `0` are falsy in Python) it re-enters the product
list of that category, otherwise the category list. -/
def process_back_to_products (s : Session) : Session :=
  match s.scratch.current_category_id with
  | some cid => if cid ≠ 0 then show_products s cid else show_categories s
  | none => show_categories s

/-- `process_back_to_cart`: `show_cart` (the session part of it). -/
def process_back_to_cart (s : Session) : Option Session :=
  (show_cart s).map Prod.fst

/-- `process_back_to_payment`: sets the FSM state to `payment_method`. -/
def process_back_to_payment (s : Session) : Session :=
  { s with state := .payment_method }

/-- The cart-mutating operations the spec quantifies over: upsert (an
`add_to_cart` with some scratch), remove, and clear. -/
inductive CartOp where
  | upsert (sc : Scratch)
  | remove (pid : Nat)
  | clear

/-- Apply one cart operation, exactly as the corresponding handler
mutates the `cart` entry of the data dict. -/
def applyCartOp (cart : List CartItem) : CartOp → List CartItem
  | .upsert sc => cart_upsert sc cart
  | .remove pid => cart.filter (fun it => it.product_id != some pid)
  | .clear => []

/-- A cart reachable from the empty cart by a sequence of operations. -/
def runOps (ops : List CartOp) : List CartItem :=
  ops.foldl applyCartOp []

/-- The `product_id` keys of a cart, in order. -/
def cartKeys (cart : List CartItem) : List (Option Nat) :=
  cart.map CartItem.product_id

/-! Sample data used by the concrete counterexamples and witnesses. -/

/-- A session sitting at the order-confirmation step with one cart line. -/
def c2session : Session :=
  ⟨.confirming_order, [⟨some 3, some "Латте 300мл", some 260, 1⟩],
   { payment_method := some "Картой", pickup_time := some "12:30" }⟩

/-- A one-product catalog (the seeded "Американо 200мл"). -/
def c3catalog : List Product :=
  [⟨1, 1, "Американо 200мл", "Классический черный кофе", 200, true⟩]

/-- A session still at the category-selection step, empty cart. -/
def c3session : Session :=
  ⟨.choosing_category, [], {}⟩

/-- A fresh database: no orders, no order lines, next id 1. -/
def c4db : DB := ⟨[], [], 1⟩

/-- A confirming session with one cart line, payment and time chosen. -/
def c4session : Session :=
  ⟨.confirming_order, [⟨some 2, some "Капучино 200мл", some 230, 1⟩],
   { payment_method := some "Наличными", pickup_time := some "Как можно скорее" }⟩

/-- A duplicate-free two-line cart holding products 1 and 6. -/
def c6cart : List CartItem :=
  [⟨some 1, some "Американо 200мл", some 200, 1⟩,
   ⟨some 6, some "Круассан Классический", some 180, 2⟩]

/-- Scratch selecting product 1 with pending quantity 3. -/
def c6scratch : Scratch :=
  { current_product_id := some 1, current_product_name := some "Американо 200мл",
    current_product_price := some 200, current_quantity := some 3 }

/-- Two upserts followed by a remove: the surviving line is product 1,
quantity 2, price 200. -/
def c7ops : List CartOp :=
  [.upsert { current_product_id := some 1,
             current_product_name := some "Американо 200мл",
             current_product_price := some 200, current_quantity := some 2 },
   .upsert { current_product_id := some 6,
             current_product_name := some "Круассан Классический",
             current_product_price := some 180, current_quantity := some 1 },
   .remove 6]

/-- A cart-viewing session with a two-unit line and a remembered category. -/
def c8session : Session :=
  ⟨.viewing_cart, [⟨some 5, some "Пончик Шоколад", some 180, 2⟩],
   { current_category_id := some 3 }⟩

/-- A fresh database for the duplicate-confirm scenario. -/
def c9db : DB := ⟨[], [], 1⟩

/-- A confirming session with two cart lines. -/
def c9session : Session :=
  ⟨.confirming_order,
   [⟨some 1, some "Американо 200мл", some 200, 2⟩,
    ⟨some 6, some "Круассан Классический", some 180, 1⟩],
   { payment_method := some "СБП (Система быстрых платежей)", pickup_time := some "10:30" }⟩

/-! Shared helper lemmas about the embedded operations. -/

/-- When every line has a price snapshot, the Python total succeeds and
is the arithmetic sum of `price * quantity`. -/
theorem cartTotal_isSome (cart : List CartItem)
    (h : ∀ it ∈ cart, it.price.isSome) :
    cartTotal cart = some ((cart.map (fun it => it.price.getD 0 * it.quantity)).sum) := by
  induction cart with
  | nil => rfl
  | cons it rest ih =>
    have hit := h it (List.mem_cons_self _ _)
    have hrest := ih (fun x hx => h x (List.mem_cons_of_mem _ hx))
    obtain ⟨p, hp⟩ := Option.isSome_iff_exists.mp hit
    simp [cartTotal, hp, hrest]

/-- The total recomputed over the persisted `order_items` rows of a
commit equals the total computed over the cart it came from. -/
theorem orderLinesTotal_map (oid : Nat) (cart : List CartItem) :
    orderLinesTotal (cart.map (fun it => ⟨oid, it.product_id, it.quantity, it.price⟩)) =
      cartTotal cart := by
  induction cart with
  | nil => rfl
  | cons it rest ih =>
    cases hp : it.price <;> cases ht : cartTotal rest <;>
      simp_all [orderLinesTotal, cartTotal]

/-- The in-place quantity update leaves the sequence of product ids
unchanged. -/
theorem updateFirst_keys (pid : Option Nat) (q : Int) :
    ∀ cart, cartKeys (updateFirst pid q cart) = cartKeys cart := by
  intro cart
  induction cart with
  | nil => rfl
  | cons it rest ih =>
    by_cases h : it.product_id = pid
    · simp [updateFirst, h, cartKeys]
    · simp only [updateFirst, if_neg h, cartKeys, List.map_cons, List.cons.injEq, true_and]
      simpa [cartKeys] using ih

/-- The in-place quantity update leaves the length unchanged. -/
theorem updateFirst_length (pid : Option Nat) (q : Int) :
    ∀ cart, (updateFirst pid q cart).length = cart.length := by
  intro cart
  induction cart with
  | nil => rfl
  | cons it rest ih =>
    by_cases h : it.product_id = pid <;> simp [updateFirst, h, ih]

/-- A cart none of whose keys is `pid` has no line filtered out for
`pid`. -/
theorem filter_pid_eq_nil (pid : Option Nat) (cart : List CartItem)
    (h : pid ∉ cartKeys cart) :
    cart.filter (fun it => it.product_id == pid) = [] := by
  induction cart with
  | nil => rfl
  | cons it rest ih =>
    simp only [cartKeys, List.map_cons, List.mem_cons] at h
    push_neg at h
    simp [List.filter_cons, ih h.2, beq_iff_eq, Ne.symm h.1]

/-- Per-index description of the in-place update on a duplicate-free
cart: the line carrying `pid` gets the new quantity, every other line is
untouched, positions included. -/
theorem updateFirst_getElem (pid : Option Nat) (q : Int) :
    ∀ cart : List CartItem, (cartKeys cart).Nodup →
      ∀ j, (hj : j < cart.length) →
        (updateFirst pid q cart)[j]? =
          some (if cart[j].product_id = pid
                then { cart[j] with quantity := q } else cart[j]) := by
  intro cart
  induction cart with
  | nil => intro _ j hj; exact absurd hj (by simp)
  | cons it rest ih =>
    intro hnd j hj
    have hnd' : (cartKeys rest).Nodup ∧ it.product_id ∉ cartKeys rest := by
      constructor
      · exact (List.nodup_cons.mp (by simpa [cartKeys] using hnd)).2
      · exact (List.nodup_cons.mp (by simpa [cartKeys] using hnd)).1
    by_cases h : it.product_id = pid
    · subst h
      cases j with
      | zero => simp [updateFirst]
      | succ k =>
        have hk : k < rest.length := by simpa using hj
        have hkey : rest[k].product_id ≠ it.product_id := by
          intro he
          exact hnd'.2 (he ▸ List.mem_map_of_mem CartItem.product_id (rest.getElem_mem hk))
        simp [updateFirst, List.getElem?_eq_getElem hk, hkey]
    · cases j with
      | zero => simp [updateFirst, h]
      | succ k =>
        have hk : k < rest.length := by simpa using hj
        simpa [updateFirst, h] using ih hnd'.1 k hk

/-- On a duplicate-free cart that does contain `pid`, the in-place
update leaves exactly one line for `pid`, carrying the new quantity. -/
theorem updateFirst_filter (pid : Option Nat) (q : Int) :
    ∀ cart : List CartItem, (cartKeys cart).Nodup → pid ∈ cartKeys cart →
      ((updateFirst pid q cart).filter
          (fun it => it.product_id == pid)).map CartItem.quantity = [q] := by
  intro cart
  induction cart with
  | nil => intro _ hmem; exact absurd hmem (by simp [cartKeys])
  | cons it rest ih =>
    intro hnd hmem
    have hnd' : (cartKeys rest).Nodup ∧ it.product_id ∉ cartKeys rest := by
      constructor
      · exact (List.nodup_cons.mp (by simpa [cartKeys] using hnd)).2
      · exact (List.nodup_cons.mp (by simpa [cartKeys] using hnd)).1
    by_cases h : it.product_id = pid
    · have hrest : pid ∉ cartKeys rest := h ▸ hnd'.2
      simp [updateFirst, h, List.filter_cons, filter_pid_eq_nil pid rest hrest]
    · have hmem' : pid ∈ cartKeys rest := by
        rcases (by simpa [cartKeys] using hmem : pid = it.product_id ∨ pid ∈ cartKeys rest) with
          he | hm
        · exact absurd he.symm h
        · exact hm
      simp [updateFirst, h, List.filter_cons, beq_iff_eq, ih hnd'.1 hmem']

/-- One upsert on a duplicate-free cart leaves exactly one line for the
scratch product id, and its quantity is this call's quantity. -/
theorem cart_upsert_filter (sc : Scratch) (cart : List CartItem)
    (hnd : (cartKeys cart).Nodup) :
    ((cart_upsert sc cart).filter
        (fun it => it.product_id == sc.current_product_id)).map CartItem.quantity =
      [sc.current_quantity.getD 1] := by
  by_cases hany : cart.any (fun it => it.product_id == sc.current_product_id) = true
  · have hmem : sc.current_product_id ∈ cartKeys cart := by
      rcases List.any_eq_true.mp hany with ⟨it, hit, he⟩
      exact (beq_iff_eq.mp he) ▸ List.mem_map_of_mem CartItem.product_id hit
    simpa [cart_upsert, hany] using
      updateFirst_filter sc.current_product_id (sc.current_quantity.getD 1) cart hnd hmem
  · have hnot : sc.current_product_id ∉ cartKeys cart := by
      intro hmem
      rcases List.mem_map.mp hmem with ⟨it, hit, he⟩
      exact hany (List.any_eq_true.mpr ⟨it, hit, beq_iff_eq.mpr he⟩)
    simp [cart_upsert, hany, List.filter_append, List.filter_cons,
      filter_pid_eq_nil sc.current_product_id cart hnot]

/-- Upserting preserves freedom from duplicate product ids. -/
theorem cart_upsert_nodup (sc : Scratch) (cart : List CartItem)
    (hnd : (cartKeys cart).Nodup) :
    (cartKeys (cart_upsert sc cart)).Nodup := by
  by_cases hany : cart.any (fun it => it.product_id == sc.current_product_id) = true
  · simpa [cart_upsert, hany,
      updateFirst_keys sc.current_product_id (sc.current_quantity.getD 1) cart] using hnd
  · have hnot : sc.current_product_id ∉ cartKeys cart := by
      intro hmem
      rcases List.mem_map.mp hmem with ⟨it, hit, he⟩
      exact hany (List.any_eq_true.mpr ⟨it, hit, beq_iff_eq.mpr he⟩)
    simp only [cart_upsert, if_neg hany, cartKeys, List.map_append, List.map_cons,
      List.map_nil]
    rw [List.nodup_append]
    refine ⟨by simpa [cartKeys] using hnd, List.nodup_singleton _, ?_⟩
    intro a ha hb
    simp only [List.mem_singleton] at hb
    exact hnot (hb ▸ (by simpa [cartKeys] using ha))

/-- Every cart operation preserves freedom from duplicate product ids. -/
theorem applyCartOp_nodup (cart : List CartItem) (op : CartOp)
    (hnd : (cartKeys cart).Nodup) :
    (cartKeys (applyCartOp cart op)).Nodup := by
  cases op with
  | upsert sc => exact cart_upsert_nodup sc cart hnd
  | remove pid =>
    have hsub : List.Sublist
        (cartKeys (cart.filter (fun it => it.product_id != some pid)))
        (cartKeys cart) := (List.filter_sublist cart).map CartItem.product_id
    exact hnd.sublist hsub
  | clear => simp [applyCartOp, cartKeys]

/-- Every cart reachable from the empty cart is free of duplicate
product ids. -/
theorem runOps_nodup (ops : List CartOp) : (cartKeys (runOps ops)).Nodup := by
  suffices h : ∀ (l : List CartOp) (cart : List CartItem), (cartKeys cart).Nodup →
      (cartKeys (l.foldl applyCartOp cart)).Nodup by
    exact h ops [] (by simp [cartKeys])
  intro l
  induction l with
  | nil => intro cart h; exact h
  | cons op rest ih =>
    intro cart h
    exact ih (applyCartOp cart op) (applyCartOp_nodup cart op h)

/-- Unfolding of a successful `create_order`: one appended order row
carrying the computed total and one appended line row per cart item. -/
theorem create_order_eq (db : DB) (uid : Nat) (cart : List CartItem)
    (pm pt : Option String) (t : Int) (ht : cartTotal cart = some t) :
    Database.create_order db uid cart pm pt =
      some ({ orders := db.orders ++ [⟨db.next_order_id, uid, "новый", t, pm, pt⟩],
              order_items := db.order_items ++
                cart.map (fun it => ⟨db.next_order_id, it.product_id, it.quantity, it.price⟩),
              next_order_id := db.next_order_id + 1 }, db.next_order_id) := by
  simp [Database.create_order, ht]

/-- The cart entry of the data dict is untouched by any sequence of
quantity adjustments. -/
theorem foldl_upq_cart (cs : List Int) :
    ∀ s : Session, (cs.foldl update_product_quantity s).cart = s.cart := by
  induction cs with
  | nil => intro _; rfl
  | cons c rest ih => intro s; exact ih (update_product_quantity s c)

/-- After at least one quantity adjustment, the stored pending quantity
is a present value and at least 1. -/
theorem foldl_upq_some (cs : List Int) :
    ∀ s : Session, cs ≠ [] →
      ∃ q, (cs.foldl update_product_quantity s).scratch.current_quantity = some q ∧
        1 ≤ q := by
  induction cs with
  | nil => intro s h; exact absurd rfl h
  | cons c rest ih =>
    intro s _
    by_cases hr : rest = []
    · subst hr
      exact ⟨max 1 (s.scratch.current_quantity.getD 1 + c), rfl, le_max_left _ _⟩
    · exact ih (update_product_quantity s c) hr

/-! Claim theorems. -/

/-- C1, counterexample: `create_order` invoked on an empty cart does not
fail — it succeeds and creates one `orders` record (total 0) and no
`order_items` records, so the emptiness precondition is not re-validated
inside persistence. -/
theorem c1_counterexample :
    Database.create_order ⟨[], [], 1⟩ 42 [] (some "Картой") (some "12:30") =
      some (⟨[⟨1, 42, "новый", 0, some "Картой", some "12:30"⟩], [], 2⟩, 1) :=
  rfl

/-- C1, amended: `create_order` performs no emptiness check — on an
empty cart it creates one order record with `total_price = 0` and no
order-line records; the emptiness precondition is enforced only by the
calling workflow handler `confirm_order`, which rejects an empty cart
without touching persistence or the session. -/
theorem c1_create_order_no_empty_check (db : DB) (uid : Nat)
    (pm pt : Option String) (st : BotState) (sc : Scratch) :
    Database.create_order db uid [] pm pt =
      some ({ orders := db.orders ++ [⟨db.next_order_id, uid, "новый", 0, pm, pt⟩],
              order_items := db.order_items,
              next_order_id := db.next_order_id + 1 }, db.next_order_id) ∧
    confirm_order uid db ⟨st, [], sc⟩ = some (db, ⟨st, [], sc⟩, none) := by
  constructor
  · simp [Database.create_order, cartTotal]
  · rfl

/-- C2, counterexample: on a `ConfirmingOrder` session holding one cart
line, the cancel handler empties the cart (it does not leave the cart's
line items unchanged) and does not move the session to
`ChoosingCategory`. -/
theorem c2_counterexample :
    (cancel_order c2session).cart = [] ∧
    (cancel_order c2session).cart ≠ c2session.cart ∧
    (cancel_order c2session).state ≠ BotState.choosing_category := by
  refine ⟨rfl, ?_, ?_⟩ <;> decide

/-- C2, amended: for every session, the cancel handler runs
`state.clear()`: the whole FSM context is discarded — pending
payment-method and pickup-time selections are dropped, but the cart is
also emptied (not left intact), and the session lands in the cleared
idle state, not `ChoosingCategory`. -/
theorem c2_cancel_clears_session (s : Session) :
    (cancel_order s).state = BotState.idle ∧
    (cancel_order s).cart = [] ∧
    (cancel_order s).scratch.payment_method = none ∧
    (cancel_order s).scratch.pickup_time = none ∧
    cancel_order s = Session.cleared :=
  ⟨rfl, rfl, rfl, rfl, rfl⟩

/-- C3, counterexample: a `selectProduct` event received while the
session is in `ChoosingCategory` is not rejected — the handler carries
no state filter, so it processes the selection, snapshots the product
into scratch and moves the session to the product-detail state instead
of leaving it in `ChoosingCategory`. -/
theorem c3_counterexample :
    (show_product_details c3catalog c3session 1).state = BotState.adding_to_cart ∧
    (show_product_details c3catalog c3session 1).state ≠ BotState.choosing_category ∧
    (show_product_details c3catalog c3session 1).scratch.current_product_id = some 1 ∧
    (show_product_details c3catalog c3session 1).scratch.current_quantity = some 1 := by
  refine ⟨rfl, ?_, rfl, rfl⟩
  decide

/-- C3, amended: callback handlers are registered without FSM state
filters, so a product-selection event is processed in every state
(`ChoosingCategory` included): when the product exists it snapshots
id/name/price, sets the pending quantity to 1 and moves the session to
the product-detail state; only an unknown product id leaves the session
unchanged (a "not found" answer). No `InvalidTransition` error exists in
the code. -/
theorem c3_product_selection_unfiltered (catalog : List Product)
    (s : Session) (pid : Nat) :
    (get_product_by_id catalog pid = none → show_product_details catalog s pid = s) ∧
    ∀ p, get_product_by_id catalog pid = some p →
      (show_product_details catalog s pid).state = BotState.adding_to_cart ∧
      (show_product_details catalog s pid).cart = s.cart ∧
      (show_product_details catalog s pid).scratch.current_product_id = some p.id ∧
      (show_product_details catalog s pid).scratch.current_product_name = some p.name ∧
      (show_product_details catalog s pid).scratch.current_product_price = some p.price ∧
      (show_product_details catalog s pid).scratch.current_quantity = some 1 := by
  constructor
  · intro h
    simp [show_product_details, h]
  · intro p hp
    simp [show_product_details, hp]

/-- C3, witness for the amended theorem, at the one-product catalog and
a `ChoosingCategory` session. -/
theorem c3_product_selection_unfiltered_witness :
    (show_product_details c3catalog c3session 1).state = BotState.adding_to_cart ∧
    (show_product_details c3catalog c3session 1).cart = c3session.cart := by
  have h := (c3_product_selection_unfiltered c3catalog c3session 1).2
    ⟨1, 1, "Американо 200мл", "Классический черный кофе", 200, true⟩ rfl
  exact ⟨h.1, h.2.1⟩

/-- C4, counterexample: a successful confirm does create the order, but
the session afterwards is in the cleared idle state (fresh FSM context,
main keyboard), not in `ChoosingCategory` as the claim states. -/
theorem c4_counterexample :
    confirm_order 7 c4db c4session =
      some (⟨[⟨1, 7, "новый", 230, some "Наличными", some "Как можно скорее"⟩],
             [⟨1, some 2, 1, some 230⟩], 2⟩, Session.cleared, some 1) ∧
    Session.cleared.state ≠ BotState.choosing_category := by
  refine ⟨rfl, ?_⟩
  decide

/-- C4, amended: on a non-empty cart whose lines all carry a price
snapshot, confirm creates exactly one order whose line count equals the
cart's line count and whose `total_price` is the cart total at commit
time; immediately afterwards the session's cart is empty — but the
session is cleared to the idle state (`state.clear()`), not moved to
`ChoosingCategory`. -/
theorem c4_confirm_clears_to_idle (db : DB) (uid : Nat) (s : Session)
    (hne : s.cart ≠ []) (hp : ∀ it ∈ s.cart, it.price.isSome) :
    ∃ t db', cartTotal s.cart = some t ∧
      confirm_order uid db s = some (db', Session.cleared, some db.next_order_id) ∧
      db'.orders = db.orders ++
        [⟨db.next_order_id, uid, "новый", t, s.scratch.payment_method,
          s.scratch.pickup_time⟩] ∧
      db'.orders.length = db.orders.length + 1 ∧
      db'.order_items.length = db.order_items.length + s.cart.length ∧
      Session.cleared.cart = [] ∧ Session.cleared.state = BotState.idle := by
  have ht := cartTotal_isSome s.cart hp
  have hco := create_order_eq db uid s.cart s.scratch.payment_method
    s.scratch.pickup_time _ ht
  refine ⟨(s.cart.map (fun it => it.price.getD 0 * it.quantity)).sum,
    { orders := db.orders ++
        [⟨db.next_order_id, uid, "новый",
          (s.cart.map (fun it => it.price.getD 0 * it.quantity)).sum,
          s.scratch.payment_method, s.scratch.pickup_time⟩],
      order_items := db.order_items ++
        s.cart.map (fun it => ⟨db.next_order_id, it.product_id, it.quantity, it.price⟩),
      next_order_id := db.next_order_id + 1 },
    ht, ?_, rfl, by simp, by simp, rfl, rfl⟩
  simp [confirm_order, hne, hco]

/-- C4, witness for the amended theorem, at a fresh database and a
one-line confirming session. -/
theorem c4_confirm_clears_to_idle_witness :
    ∃ r, confirm_order 7 c4db c4session = some r ∧ r.2.1 = Session.cleared := by
  obtain ⟨t, db', -, hconf, -, -, -, -, -⟩ :=
    c4_confirm_clears_to_idle c4db 7 c4session (by decide) (by decide)
  exact ⟨_, hconf, rfl⟩

/-- C5, confirmed: starting from any session whose effective pending
quantity is at least 1 (the default for an absent key is 1), any
sequence of quantity adjustments keeps the effective pending quantity at
least 1 — each step stores `max 1 (quantity + change)` — never touches
the cart, and after at least one adjustment the stored value itself is
present and at least 1. -/
theorem c5_pending_quantity_ge_one (s : Session) (cs : List Int)
    (h : 1 ≤ s.scratch.current_quantity.getD 1) :
    1 ≤ (cs.foldl update_product_quantity s).scratch.current_quantity.getD 1 ∧
    (cs.foldl update_product_quantity s).cart = s.cart ∧
    (cs ≠ [] →
      ∃ q, (cs.foldl update_product_quantity s).scratch.current_quantity = some q ∧
        1 ≤ q) := by
  refine ⟨?_, foldl_upq_cart cs s, foldl_upq_some cs s⟩
  cases cs with
  | nil => exact h
  | cons c rest =>
    obtain ⟨q, hq, h1⟩ := foldl_upq_some (c :: rest) s (by simp)
    rw [hq]
    simpa using h1

/-- C5, witness: two decrements followed by an increment on a cleared
session clamp at 1 and leave the cart alone. -/
theorem c5_pending_quantity_ge_one_witness :
    1 ≤ (([-1, -1, 1] : List Int).foldl update_product_quantity
        Session.cleared).scratch.current_quantity.getD 1 ∧
    (([-1, -1, 1] : List Int).foldl update_product_quantity
        Session.cleared).cart = Session.cleared.cart := by
  have h := c5_pending_quantity_ge_one Session.cleared [-1, -1, 1] (by decide)
  exact ⟨h.1, h.2.1⟩

/-- C9, confirmed: a first confirm on a non-empty cart commits exactly
one order and clears the FSM context; the duplicate confirm that follows
finds the empty cart, is rejected before touching persistence, and the
number of persisted orders stays at one more than before the first
confirm. -/
theorem c9_no_double_order (db : DB) (uid : Nat) (s : Session)
    (hne : s.cart ≠ []) (hp : ∀ it ∈ s.cart, it.price.isSome) :
    ∃ db₁ oid, confirm_order uid db s = some (db₁, Session.cleared, some oid) ∧
      confirm_order uid db₁ Session.cleared = some (db₁, Session.cleared, none) ∧
      db₁.orders.length = db.orders.length + 1 := by
  have ht := cartTotal_isSome s.cart hp
  have hco := create_order_eq db uid s.cart s.scratch.payment_method
    s.scratch.pickup_time _ ht
  refine ⟨DB.mk
      (db.orders ++
        [⟨db.next_order_id, uid, "новый",
          (s.cart.map (fun it => it.price.getD 0 * it.quantity)).sum,
          s.scratch.payment_method, s.scratch.pickup_time⟩])
      (db.order_items ++
        s.cart.map (fun it => ⟨db.next_order_id, it.product_id, it.quantity, it.price⟩))
      (db.next_order_id + 1),
    db.next_order_id, ?_, rfl, by simp⟩
  simp [confirm_order, hne, hco]

/-- C9, witness: the duplicate-confirm scenario at a fresh database and
a two-line confirming session. -/
theorem c9_no_double_order_witness :
    ∃ db₁ oid, confirm_order 5 c9db c9session = some (db₁, Session.cleared, some oid) ∧
      confirm_order 5 db₁ Session.cleared = some (db₁, Session.cleared, none) ∧
      db₁.orders.length = c9db.orders.length + 1 :=
  c9_no_double_order c9db 5 c9session (by decide) (by decide)

/-- C6, confirmed: every cart reachable by the cart operations has at
most one line per product id; on such carts an upsert preserves the
uniqueness, leaves exactly one line for the upserted product id carrying
this call's quantity, keeps every line (the matched one included) at its
original position when the product was already present, appends a new
line at the end when it was absent, and two upserts for the same product
leave exactly one line with the later call's quantity. -/
theorem c6_cart_upsert_unique :
    (∀ ops : List CartOp, (cartKeys (runOps ops)).Nodup) ∧
    ∀ (sc : Scratch) (cart : List CartItem), (cartKeys cart).Nodup →
      (cartKeys (cart_upsert sc cart)).Nodup ∧
      ((cart_upsert sc cart).filter
          (fun it => it.product_id == sc.current_product_id)).map CartItem.quantity =
        [sc.current_quantity.getD 1] ∧
      ((∃ it ∈ cart, it.product_id = sc.current_product_id) →
        cartKeys (cart_upsert sc cart) = cartKeys cart ∧
        ∀ j, (hj : j < cart.length) →
          (cart_upsert sc cart)[j]? =
            some (if cart[j].product_id = sc.current_product_id
                  then { cart[j] with quantity := sc.current_quantity.getD 1 }
                  else cart[j])) ∧
      ((∀ it ∈ cart, it.product_id ≠ sc.current_product_id) →
        cart_upsert sc cart = cart ++
          [⟨sc.current_product_id, sc.current_product_name, sc.current_product_price,
            sc.current_quantity.getD 1⟩]) ∧
      ∀ sc₂ : Scratch, sc₂.current_product_id = sc.current_product_id →
        ((cart_upsert sc₂ (cart_upsert sc cart)).filter
            (fun it => it.product_id == sc.current_product_id)).map CartItem.quantity =
          [sc₂.current_quantity.getD 1] := by
  refine ⟨runOps_nodup, ?_⟩
  intro sc cart hnd
  refine ⟨cart_upsert_nodup sc cart hnd, cart_upsert_filter sc cart hnd, ?_, ?_, ?_⟩
  · rintro ⟨it, hit, he⟩
    have hany : cart.any (fun x => x.product_id == sc.current_product_id) = true :=
      List.any_eq_true.mpr ⟨it, hit, beq_iff_eq.mpr he⟩
    constructor
    · simpa [cart_upsert, hany] using
        updateFirst_keys sc.current_product_id (sc.current_quantity.getD 1) cart
    · intro j hj
      simpa [cart_upsert, hany] using
        updateFirst_getElem sc.current_product_id (sc.current_quantity.getD 1)
          cart hnd j hj
  · intro habs
    have hany : cart.any (fun x => x.product_id == sc.current_product_id) = false := by
      rw [List.any_eq_false]
      intro it hit
      simpa [beq_iff_eq] using habs it hit
    simp [cart_upsert, hany]
  · intro sc₂ he
    rw [← he]
    exact cart_upsert_filter sc₂ (cart_upsert sc cart) (cart_upsert_nodup sc cart hnd)

/-- C6, witness: upserting product 1 with quantity 3 into a two-line
cart that already holds product 1 leaves one line for product 1 with
quantity 3 and the key sequence unchanged. -/
theorem c6_cart_upsert_unique_witness :
    ((cart_upsert c6scratch c6cart).filter
        (fun it => it.product_id == c6scratch.current_product_id)).map CartItem.quantity =
      [c6scratch.current_quantity.getD 1] ∧
    cartKeys (cart_upsert c6scratch c6cart) = cartKeys c6cart := by
  have h := c6_cart_upsert_unique.2 c6scratch c6cart (by decide)
  exact ⟨h.2.1,
    (h.2.2.1 ⟨⟨some 1, some "Американо 200мл", some 200, 1⟩,
      List.mem_cons_self _ _, rfl⟩).1⟩

/-- C7, confirmed: for every cart reachable by upsert/remove/clear whose
lines all carry a price snapshot, the total is the sum of
`price * quantity` over the current lines; `create_order` stores exactly
that total — recomputed from the cart it is given, with no caller-
supplied total parameter — and the total recomputed over the committed
`order_items` rows agrees with the stored `total_price`; the cart view
recomputes the same total on each display instead of reading a cache
(no total is ever stored in the session or the cart). -/
theorem c7_total_recomputed (ops : List CartOp) (db : DB) (uid : Nat)
    (pm pt : Option String) (hp : ∀ it ∈ runOps ops, it.price.isSome) :
    ∃ t, cartTotal (runOps ops) = some t ∧
      t = ((runOps ops).map (fun it => it.price.getD 0 * it.quantity)).sum ∧
      ∃ db', Database.create_order db uid (runOps ops) pm pt =
          some (db', db.next_order_id) ∧
        db'.orders = db.orders ++ [⟨db.next_order_id, uid, "новый", t, pm, pt⟩] ∧
        db'.order_items = db.order_items ++ (runOps ops).map
          (fun it => ⟨db.next_order_id, it.product_id, it.quantity, it.price⟩) ∧
        orderLinesTotal ((runOps ops).map
          (fun it => ⟨db.next_order_id, it.product_id, it.quantity, it.price⟩)) =
          some t ∧
        ∀ (st : BotState) (sc : Scratch), runOps ops ≠ [] →
          show_cart ⟨st, runOps ops, sc⟩ =
            some (⟨BotState.viewing_cart, runOps ops, sc⟩, some t) := by
  have ht := cartTotal_isSome (runOps ops) hp
  refine ⟨_, ht, rfl, _, create_order_eq db uid _ pm pt _ ht, rfl, rfl, ?_, ?_⟩
  · rw [orderLinesTotal_map]
    exact ht
  · intro st sc hne
    simp [show_cart, hne, ht]

/-- C7, witness: two upserts followed by a remove leave one line with
quantity 2 at price 200, totalling 400. -/
theorem c7_total_recomputed_witness :
    cartTotal (runOps c7ops) = some 400 ∧
    ∃ r, Database.create_order c4db 9 (runOps c7ops) none none = some r := by
  obtain ⟨t, ht, hsum, db', hco, -, -, -, -⟩ :=
    c7_total_recomputed c7ops c4db 9 none none (by decide)
  have ht400 : t = 400 := by rw [hsum]; rfl
  exact ⟨ht400 ▸ ht, ⟨_, hco⟩⟩

/-- C8, counterexample: the backward-navigation event `back_to_main`
does mutate cart contents — on a session whose cart holds one line it
runs `state.clear()` and empties the cart, so not every `back_to_*`
event leaves the cart's line items unchanged. -/
theorem c8_counterexample :
    c8session.cart ≠ [] ∧
    (process_back_to_main c8session).cart = [] ∧
    (process_back_to_main c8session).cart ≠ c8session.cart := by
  refine ⟨?_, rfl, ?_⟩ <;> decide

/-- C8, amended: the backward-navigation handlers `back_to_menu`,
`back_to_categories`, `back_to_products`, `back_to_cart` and
`back_to_payment` leave the cart's line items unchanged and re-enter the
corresponding previous state using data already in scratch
(`back_to_products` re-enters the product list of the remembered
category, `back_to_cart` re-enters the cart view when the cart is
non-empty); `back_to_main`, however, clears the whole FSM context, cart
included. -/
theorem c8_back_navigation (s : Session) :
    (process_back_to_menu s).cart = s.cart ∧
    (process_back_to_menu s).state = BotState.choosing_category ∧
    (process_back_to_categories s).cart = s.cart ∧
    (process_back_to_categories s).state = BotState.choosing_category ∧
    (process_back_to_products s).cart = s.cart ∧
    (∀ cid, s.scratch.current_category_id = some cid → cid ≠ 0 →
      (process_back_to_products s).state = BotState.choosing_product) ∧
    (∀ s', process_back_to_cart s = some s' → s'.cart = s.cart) ∧
    (s.cart ≠ [] → ∀ s', process_back_to_cart s = some s' →
      s'.state = BotState.viewing_cart) ∧
    (process_back_to_payment s).cart = s.cart ∧
    (process_back_to_payment s).state = BotState.payment_method ∧
    (process_back_to_main s).cart = [] ∧
    process_back_to_main s = Session.cleared := by
  refine ⟨rfl, rfl, rfl, rfl, ?_, ?_, ?_, ?_, rfl, rfl, rfl, rfl⟩
  · cases h : s.scratch.current_category_id with
    | none => simp [process_back_to_products, h, show_categories]
    | some cid =>
      by_cases hc : cid = 0
      · simp [process_back_to_products, h, hc, show_categories]
      · simp [process_back_to_products, h, hc, show_products]
  · intro cid hcid hne
    simp [process_back_to_products, hcid, hne, show_products]
  · intro s' hs'
    by_cases hc : s.cart = []
    · have hr : process_back_to_cart s = some s := by
        simp [process_back_to_cart, show_cart, hc]
      rw [hr] at hs'
      injection hs' with h
      rw [← h]
    · cases ht : cartTotal s.cart with
      | none =>
        simp [process_back_to_cart, show_cart, hc, ht] at hs'
      | some t =>
        have hr : process_back_to_cart s = some { s with state := .viewing_cart } := by
          simp [process_back_to_cart, show_cart, hc, ht]
        rw [hr] at hs'
        injection hs' with h
        rw [← h]
  · intro hc s' hs'
    cases ht : cartTotal s.cart with
    | none =>
      simp [process_back_to_cart, show_cart, hc, ht] at hs'
    | some t =>
      have hr : process_back_to_cart s = some { s with state := .viewing_cart } := by
        simp [process_back_to_cart, show_cart, hc, ht]
      rw [hr] at hs'
      injection hs' with h
      rw [← h]

/-- C8, witness for the amended theorem: on a one-line session with a
remembered category, `back_to_products` re-enters the product list and
`back_to_cart` keeps the cart and re-enters the cart view. -/
theorem c8_back_navigation_witness :
    (process_back_to_products c8session).state = BotState.choosing_product ∧
    (⟨BotState.viewing_cart, [⟨some 5, some "Пончик Шоколад", some 180, 2⟩],
      { current_category_id := some 3 }⟩ : Session).cart = c8session.cart ∧
    (⟨BotState.viewing_cart, [⟨some 5, some "Пончик Шоколад", some 180, 2⟩],
      { current_category_id := some 3 }⟩ : Session).state = BotState.viewing_cart := by
  have h := c8_back_navigation c8session
  exact ⟨h.2.2.2.2.2.1 3 rfl (by decide),
    h.2.2.2.2.2.2.1 _ rfl,
    h.2.2.2.2.2.2.2.1 (by decide) _ rfl⟩

/-- C10, confirmed: with no product selection in scratch (all four
`current_product_*` keys absent, as after a reset) and no degenerate
line already present, `add_to_cart` does not fail: it appends a line
whose `product_id`, `name` and `price` are all `None` with quantity
defaulting to 1. -/
theorem c10_degenerate_line_item (st : BotState) (cart : List CartItem)
    (sc : Scratch)
    (h1 : sc.current_product_id = none) (h2 : sc.current_product_name = none)
    (h3 : sc.current_product_price = none) (h4 : sc.current_quantity = none)
    (h5 : ∀ it ∈ cart, it.product_id ≠ none) :
    add_to_cart ⟨st, cart, sc⟩ = ⟨st, cart ++ [⟨none, none, none, 1⟩], sc⟩ := by
  have hany : cart.any (fun it => it.product_id == (none : Option Nat)) = false := by
    rw [List.any_eq_false]
    intro it hit
    simpa [beq_iff_eq] using h5 it hit
  simp only [add_to_cart, cart_upsert, h1, h2, h3, h4, hany, Bool.false_eq_true,
    if_false, Option.getD_none]

/-- C10, witness: on a freshly reset session the degenerate line is
appended to the empty cart. -/
theorem c10_degenerate_line_item_witness :
    add_to_cart ⟨BotState.adding_to_cart, [], {}⟩ =
      ⟨BotState.adding_to_cart, [⟨none, none, none, 1⟩], {}⟩ :=
  c10_degenerate_line_item BotState.adding_to_cart [] {} rfl rfl rfl rfl (by simp)

end TgBot
